import Mathlib

set_option maxRecDepth 8192

/-!
Shallow embedding of the B2BWave authenticated catalog crawler
(`bms-b2bwave` scraper script): session acquisition, brand directory
construction, the per-brand crawl state machine, record extraction and
the batching sink, together with proofs of the specified properties.

Strings are Lean `String`s; JavaScript numbers produced by `parseFloat`
are modelled as `Option ℚ`, with `none` standing for `NaN` (the script
only ever produces finite decimal values or `NaN`).
-/

namespace B2BWave

/-- Model of JavaScript `String.prototype.includes` on character lists:
`listIncludes sub l` is true when `sub` occurs as a contiguous run in `l`. -/
def listIncludes (sub : List Char) : List Char → Bool
  | [] => sub.isEmpty
  | c :: rest => sub.isPrefixOf (c :: rest) || listIncludes sub rest

/-- Model of JavaScript `s.includes(sub)`. -/
def jsIncludes (s sub : String) : Bool :=
  listIncludes sub.data s.data

/-- Model of JavaScript `s.trim()`: drop whitespace from both ends. -/
def jsTrim (s : String) : String :=
  String.mk (((s.data.dropWhile (fun c => c.isWhitespace)).reverse.dropWhile
    (fun c => c.isWhitespace)).reverse)

/-- Model of JavaScript `s.toLowerCase()` (ASCII case mapping suffices for
the brand names and attribute values this script handles). -/
def jsToLower (s : String) : String :=
  String.mk (s.data.map Char.toLower)

/-- Model of `s.replace(/[^0-9.]/g, '')`: keep only digits and dots. -/
def stripNonNumeric (s : String) : String :=
  String.mk (s.data.filter (fun c => c.isDigit || c == '.'))

/-- Value of a (decimal) digit list, most significant first. -/
def digitsVal (l : List Char) : Nat :=
  l.foldl (fun n c => 10 * n + (c.toNat - 48)) 0

/-- Exponent tail of a JavaScript float literal: optional sign then digits;
no digits means the exponent marker is ignored (parsing stopped earlier). -/
def applyExpTail (q : ℚ) (l : List Char) : ℚ :=
  let p := match l with
    | '-' :: r => (true, r)
    | '+' :: r => (false, r)
    | _ => (false, l)
  let ds := p.2.takeWhile (fun c => c.isDigit)
  if ds.isEmpty then q
  else if p.1 then q / ((10 : ℚ) ^ digitsVal ds) else q * ((10 : ℚ) ^ digitsVal ds)

/-- Optional `e`/`E` exponent following the mantissa. -/
def applyExponent (q : ℚ) (l : List Char) : ℚ :=
  match l with
  | 'e' :: r => applyExpTail q r
  | 'E' :: r => applyExpTail q r
  | _ => q

/-- Model of JavaScript `parseFloat`: skip leading whitespace, optional
sign, longest decimal-literal run with optional fraction and exponent;
`none` models the `NaN` result when no digits can be consumed.
(The special literal `Infinity` never arises in this script's inputs.) -/
def jsParseFloat (s : String) : Option ℚ :=
  let l0 := s.data.dropWhile (fun c => c.isWhitespace)
  let sign : ℚ := match l0 with
    | '-' :: _ => -1
    | _ => 1
  let l1 := match l0 with
    | '-' :: rest => rest
    | '+' :: rest => rest
    | _ => l0
  let intPart := l1.takeWhile (fun c => c.isDigit)
  let rest1 := l1.dropWhile (fun c => c.isDigit)
  let fracPart := match rest1 with
    | '.' :: r => r.takeWhile (fun c => c.isDigit)
    | _ => []
  let rest2 := match rest1 with
    | '.' :: r => r.dropWhile (fun c => c.isDigit)
    | _ => rest1
  if intPart.isEmpty && fracPart.isEmpty then none
  else
    let mantissa : ℚ :=
      sign * ((digitsVal intPart : ℚ) + (digitsVal fracPart : ℚ) / ((10 : ℚ) ^ fracPart.length))
    some (applyExponent mantissa rest2)

/-- Case-insensitive match of the (lowercase) pattern against the head of a
character list. -/
def headMatchCI : List Char → List Char → Bool
  | [], _ => true
  | _ :: _, [] => false
  | p :: ps, c :: cs => (c.toLower == p) && headMatchCI ps cs

/-- Model of `s.replace(/Code:|SKU:/i, '')`: remove the leftmost
case-insensitive occurrence of `Code:` or `SKU:` (non-global regex, so at
most one removal; at a same position the alternatives cannot both match). -/
def removeCodeSku : List Char → List Char
  | [] => []
  | c :: rest =>
    if headMatchCI ['c', 'o', 'd', 'e', ':'] (c :: rest) then (c :: rest).drop 5
    else if headMatchCI ['s', 'k', 'u', ':'] (c :: rest) then (c :: rest).drop 4
    else c :: removeCodeSku rest

/-- String form of `removeCodeSku`. -/
def stripCodeSku (s : String) : String :=
  String.mk (removeCodeSku s.data)

/-- Hexadecimal digit character (uppercase, as produced by URI encoding). -/
def hexDigitChar (n : Nat) : Char :=
  if n < 10 then Char.ofNat (48 + n) else Char.ofNat (55 + n)

/-- UTF-8 bytes of a character. -/
def utf8Bytes (c : Char) : List Nat :=
  let n := c.toNat
  if n < 128 then [n]
  else if n < 2048 then [192 + n / 64, 128 + n % 64]
  else if n < 65536 then [224 + n / 4096, 128 + (n / 64) % 64, 128 + n % 64]
  else [240 + n / 262144, 128 + (n / 4096) % 64, 128 + (n / 64) % 64, 128 + n % 64]

/-- Characters left unescaped by JavaScript `encodeURIComponent`:
letters, digits and `- _ . ! ~ * ' ( )` (written via code points). -/
def isUnreservedURI (c : Char) : Bool :=
  c.isAlpha || c.isDigit || c == Char.ofNat 45 || c == Char.ofNat 95 ||
    c == Char.ofNat 46 || c == Char.ofNat 33 || c == Char.ofNat 126 ||
    c == Char.ofNat 42 || c == Char.ofNat 39 || c == Char.ofNat 40 ||
    c == Char.ofNat 41

/-- Model of JavaScript `encodeURIComponent`. -/
def encodeURIComponent (s : String) : String :=
  String.mk (s.data.foldr
    (fun c acc =>
      if isUnreservedURI c then c :: acc
      else (utf8Bytes c).foldr
        (fun b acc2 => '%' :: hexDigitChar (b / 16) :: hexDigitChar (b % 16) :: acc2) acc)
    [])

/-- Default `--url` parameter after trailing-slash stripping. -/
def defaultBaseUrl : String := "https://batterymegastore.b2bwave.com"

/-- Stock status written to the `Status` column. -/
inductive StockStatus where
  | inStock
  | outOfStock
deriving DecidableEq, Repr

/-- One candidate product element matched by
`table.preferred-products tbody tr, .card-product`: the selector results
feeding the extractor. jQuery `.text()` on an empty match set yields `""`
(a plain `String` field); `.attr(...)` on a missing attribute yields
`undefined` (an `Option String` field). -/
structure Row where
  /-- the element has class `second-row` (hidden spacer row) -/
  secondRow : Bool
  /-- text of `td.product-title a, .card-product-title` -/
  titleText : String
  /-- text of `td.line-item.code a, .code-smaller, .product-code` -/
  codeText : String
  /-- `data-price` attribute of `td.price-col span.price` -/
  dataPrice : Option String
  /-- text of `.price` -/
  priceText : String
  /-- text of `td.avl-qty, .in-stock` -/
  qtyText : String
  /-- `max` attribute of `input[name="quantity"]` -/
  qtyMax : Option String
deriving DecidableEq, Repr

/-- A row pushed into the product buffer (the generated UUID column is
omitted: it carries no information the properties speak about).
`price` and `qty` are `Option ℚ`, with `none` for `NaN`. -/
structure ExtractedRecord where
  brandName : String
  sku : String
  status : StockStatus
  price : Option ℚ
  name : String
  qty : Option ℚ
deriving DecidableEq, Repr

/-- The `rawPrice` string: `data-price` attribute if truthy, else the
displayed `.price` text stripped of non-numeric characters. -/
def rowRawPrice (r : Row) : String :=
  match r.dataPrice with
  | some s => if s ≠ "" then s else stripNonNumeric r.priceText
  | none => stripNonNumeric r.priceText

/-- `parseFloat(rawPrice || 0)`: an empty (falsy) string falls back to the
number `0`; otherwise the string is parsed (possibly to `NaN`). -/
def rowPrice (r : Row) : Option ℚ :=
  if rowRawPrice r ≠ "" then jsParseFloat (rowRawPrice r) else some 0

/-- `parseFloat(qtyText || qtyInput || 0)` where `qtyText` is the stripped
stock text and `qtyInput` the `max` attribute: the first truthy operand is
parsed, and with neither available the result is `0`. -/
def rowQty (r : Row) : Option ℚ :=
  let qtyText := stripNonNumeric r.qtyText
  if qtyText ≠ "" then jsParseFloat qtyText
  else
    match r.qtyMax with
    | some m => if m ≠ "" then jsParseFloat m else some 0
    | none => some 0

/-- `qty > 0 ? 'IN_STOCK' : 'OUT_OF_STOCK'`; a `NaN` comparison is false. -/
def rowStatus (r : Row) : StockStatus :=
  match rowQty r with
  | some q => if 0 < q then .inStock else .outOfStock
  | none => .outOfStock

/-- Extraction of one row (the body of the `.each` callback): spacer rows
are skipped, and a record is pushed only when both the cleaned code and
the trimmed title are non-empty (truthy). -/
def extractRow (brandName : String) (r : Row) : Option ExtractedRecord :=
  if r.secondRow then none
  else
    let title := jsTrim r.titleText
    let rawCode := jsTrim (stripCodeSku r.codeText)
    if rawCode ≠ "" ∧ title ≠ "" then
      some ⟨brandName, rawCode, rowStatus r, rowPrice r, title, rowQty r⟩
    else none

/-- Extraction over all matched rows of a page. -/
def extract (brandName : String) (rows : List Row) : List ExtractedRecord :=
  rows.filterMap (extractRow brandName)

/-- A row is well formed when it is not a spacer and has non-empty cleaned
code and trimmed title: exactly the rows that produce a record. -/
def wellFormedRow (r : Row) : Bool :=
  !r.secondRow && !(jsTrim (stripCodeSku r.codeText) == "") && !(jsTrim r.titleText == "")

/-- A fetched page, as seen by the `CheerioCrawler` request handler. -/
structure Page where
  /-- text of `.alert-danger` -/
  alertText : String
  /-- product rows matched on the page -/
  rows : List Row
  /-- hrefs matched by `.pagination a[rel="next"], .next_page a` -/
  nextLinks : List String
deriving DecidableEq, Repr

/-- The "no products available" signal in the page's alert box. -/
def noProducts (p : Page) : Bool :=
  jsIncludes p.alertText "no products available"

/-- A queued crawl request: URL plus the `userData` carried with it. -/
structure Req where
  url : String
  brandName : String
  isSearchFallback : Bool
deriving DecidableEq, Repr

/-- The full-text search fallback URL built from a brand name. -/
def searchUrl (baseUrl brand : String) : String :=
  baseUrl ++ "/products/search_list?utf8=%E2%9C%93&search=" ++
    encodeURIComponent brand ++ "&per_page=96"

/-- One seeded start request per in-scope brand: the directory category URL
(with `&per_page=96`) when the lower-cased brand is a key of the brand
dictionary, else the full-text search URL; `isSearchFallback` is `false`
in both branches. -/
def startRequest (baseUrl : String) (brandDict : String → Option String)
    (brand : String) : Req :=
  let normalizedBrand := jsToLower brand
  match brandDict normalizedBrand with
  | some u => ⟨u ++ "&per_page=96", brand, false⟩
  | none => ⟨searchUrl baseUrl brand, brand, false⟩

/-- `targetBrands.map(...)` seeding the crawler. -/
def startRequests (baseUrl : String) (brandDict : String → Option String)
    (targetBrands : List String) : List Req :=
  targetBrands.map (startRequest baseUrl brandDict)

/-- Requests enqueued and records extracted by the request handler on one
page: on a "no products available" page a single fallback search request
is enqueued exactly when the task is not yet a search fallback (and the
handler returns early with no records); otherwise records are extracted
and every pagination link is enqueued with the `userData` carried over
unchanged. -/
def requestHandler (baseUrl : String) (req : Req) (p : Page) :
    List Req × List ExtractedRecord :=
  if noProducts p then
    (if !req.isSearchFallback then
        [⟨searchUrl baseUrl req.brandName, req.brandName, true⟩]
      else [], [])
  else
    (p.nextLinks.map (fun u => ⟨u, req.brandName, req.isSearchFallback⟩),
      extract req.brandName p.rows)

/-- One page-processing step of a lineage: `req'` is among the requests the
handler enqueues while processing some page for `req`. -/
def StepRel (baseUrl : String) (req req' : Req) : Prop :=
  ∃ p : Page, req' ∈ (requestHandler baseUrl req p).1

/-- One `.card-product-title` element of the brand directory page:
its text and its `href` attribute (absent or empty `href` is falsy). -/
structure DirEntry where
  text : String
  href : Option String
deriving DecidableEq, Repr

/-- One iteration of the `.each` loop building the brand dictionary:
`dictionary.set(brandName.toLowerCase(), baseUrl + href)` guarded by a
truthy `href`. The `Map` is modelled by its lookup function, for which
`set` is pointwise overwrite. -/
def dictInsert (baseUrl : String) (dict : String → Option String)
    (e : DirEntry) : String → Option String :=
  match e.href with
  | some h =>
      if h ≠ "" then
        fun k => if k = jsToLower (jsTrim e.text) then some (baseUrl ++ h) else dict k
      else dict
  | none => dict

/-- The brand dictionary built from the directory page's entries, in
document order, starting from the empty `Map`. -/
def getBrandDictionary (baseUrl : String) (entries : List DirEntry) :
    String → Option String :=
  entries.foldl (dictInsert baseUrl) (fun _ => none)

/-- The shared sink state: the in-memory `productBuffer` and the running
`totalScraped` counter. -/
structure SinkState where
  buffer : List ExtractedRecord
  total : Nat
deriving DecidableEq, Repr

/-- What one call of `flushBufferToDb` did: the resulting state, the
propagated database error if the bulk insert threw, and the row batch
passed to `db.query` (or `none` when the empty-buffer guard returned
without writing). -/
structure FlushOutcome where
  state : SinkState
  err : Option String
  attempted : Option (List ExtractedRecord)
deriving DecidableEq, Repr

/-- `flushBufferToDb`, parametrized by the bulk-insert collaborator: a
no-op on an empty buffer; otherwise one bulk write of the whole buffer.
Only after a successful write is the total incremented and the buffer
cleared; a thrown error propagates with both left untouched. -/
def flushBufferToDb (write : List ExtractedRecord → Except String Unit)
    (s : SinkState) : FlushOutcome :=
  if s.buffer.isEmpty then ⟨s, none, none⟩
  else
    match write s.buffer with
    | .error e => ⟨s, some e, some s.buffer⟩
    | .ok _ => ⟨⟨[], s.total + s.buffer.length⟩, none, some s.buffer⟩

/-- A bulk-insert collaborator that always succeeds. -/
def dbWriteOk : List ExtractedRecord → Except String Unit :=
  fun _ => .ok ()

/-- The sink-side effect of handling one page whose extraction produced
`recs`: every record is pushed, then — once per page, after all pushes —
the buffer is flushed when it has reached 100 records. Returns the new
state together with the batches written (successful writes assumed, as on
the crawl path). -/
def processPage (s : SinkState) (recs : List ExtractedRecord) :
    SinkState × List (List ExtractedRecord) :=
  let s1 : SinkState := ⟨s.buffer ++ recs, s.total⟩
  if s1.buffer.length ≥ 100 then
    let r := flushBufferToDb dbWriteOk s1
    (r.state, r.attempted.toList)
  else (s1, [])

/-- The sink state and written batches after the crawler has processed a
run of pages (given by the record list each page's extraction produced),
starting from an empty buffer and a zero total. -/
def runPages (pages : List (List ExtractedRecord)) :
    SinkState × List (List ExtractedRecord) :=
  pages.foldl
    (fun acc recs =>
      let pr := processPage acc.1 recs
      (pr.1, acc.2 ++ pr.2))
    (⟨[], 0⟩, [])

/-- The end-of-run drain: `await flushBufferToDb()` after `crawler.run`,
followed by the success report of `totalScraped`; a sink write error is
caught by the surrounding `try`/`catch` and ends the run in failure. -/
def mainDrain (write : List ExtractedRecord → Except String Unit)
    (s : SinkState) : Except String Nat :=
  let r := flushBufferToDb write s
  match r.err with
  | some e => .error e
  | none => .ok r.state.total

/-- Observable browser-side actions of the login routine. -/
inductive BrowserAction where
  | screenshot (path : String)
  | closeBrowser
deriving DecidableEq, Repr

/-- `cookies.map(c => ...).join('; ')`. -/
def cookieString (cookies : List (String × String)) : String :=
  String.intercalate "; " (cookies.map (fun c => c.1 ++ "=" ++ c.2))

/-- The error message thrown when login stays on the sign-in page. -/
def loginFailedMessage : String :=
  "❌ Login failed. Form submitted but stayed on login page. Check debug_login_failed.png"

/-- Outcome of `getSessionCookies` as a function of the page state reached
after the form submission's navigation has completed (`page.url()` and
`page.cookies()`): if the URL still contains `sign_in`, a diagnostic
screenshot is captured and the authentication error is thrown; otherwise
the joined cookie bundle is returned. -/
def getSessionCookies (currentUrl : String)
    (cookies : List (String × String)) :
    List BrowserAction × Except String String :=
  if jsIncludes currentUrl "sign_in" then
    ([.screenshot "debug_login_failed.png", .closeBrowser],
      .error loginFailedMessage)
  else
    ([.closeBrowser], .ok (cookieString cookies))

/-- A concrete record for counterexample and witness pages. -/
def sampleRecord : ExtractedRecord :=
  ⟨"Acme", "AB123", .inStock, some 1, "Acme Battery", some 1⟩

/-- A page whose alert box carries the "no products available" signal. -/
def pageNoProducts : Page :=
  ⟨"There are no products available in this category.", [], []⟩

/-- A well-formed row whose structured price attribute is unparseable. -/
def unparseablePriceRow : Row :=
  ⟨false, "Widget", "AB123", some "abc", "", "", none⟩

/-- A well-formed row with both a displayed stock text and a quantity-input
`max` attribute, disagreeing with each other. -/
def qtyDisagreeRow : Row :=
  ⟨false, "Widget", "AB123", none, "", "5 in stock", some "10"⟩

/-- The two flag states `a.isSearchFallback → b.isSearchFallback`, as a
transition-monotonicity relation on requests. -/
def FlagLE (a c : Req) : Prop :=
  a.isSearchFallback = true → c.isSearchFallback = true

/-- Number of `false → true` adjacent rises in a Boolean trace. -/
def boolRises : List Bool → Nat
  | [] => 0
  | [_] => 0
  | a :: b :: rest => (if !a && b then 1 else 0) + boolRises (b :: rest)

/-- Number of `LISTING → SEARCH_FALLBACK` transitions along a lineage of
requests (adjacent flag rises). -/
def fallbackTransitions (l : List Req) : Nat :=
  boolRises (l.map (fun r => r.isSearchFallback))

section ExtractionProofs

/-- Definitional reshaping of `extractRow` with its local bindings
substituted. -/
theorem extractRow_eq (brand : String) (r : Row) :
    extractRow brand r =
      if r.secondRow then none
      else
        if jsTrim (stripCodeSku r.codeText) ≠ "" ∧ jsTrim r.titleText ≠ "" then
          some ⟨brand, jsTrim (stripCodeSku r.codeText), rowStatus r, rowPrice r,
            jsTrim r.titleText, rowQty r⟩
        else none := rfl

/-- A record is produced from a row exactly when the row is well formed. -/
theorem extractRow_isSome (brand : String) (r : Row) :
    (extractRow brand r).isSome = wellFormedRow r := by
  unfold extractRow wellFormedRow
  by_cases hs : r.secondRow
  · simp [hs]
  · by_cases hc : jsTrim (stripCodeSku r.codeText) = "" <;>
      by_cases ht : jsTrim r.titleText = "" <;>
        simp [hs, hc, ht]

/-- The number of records extracted from a page equals the number of its
well-formed rows. -/
theorem extract_length_eq_countP (brand : String) (rows : List Row) :
    (extract brand rows).length = rows.countP wellFormedRow := by
  induction rows with
  | nil => rfl
  | cons r rest ih =>
      have hiff := extractRow_isSome brand r
      cases h : extractRow brand r with
      | none =>
          rw [h] at hiff
          simp only [Option.isSome_none] at hiff
          simp [extract, List.filterMap_cons, h, List.countP_cons, ← hiff,
            extract] at ih ⊢
          exact ih
      | some rec =>
          rw [h] at hiff
          simp only [Option.isSome_some] at hiff
          simp [extract, List.filterMap_cons, h, List.countP_cons, ← hiff,
            extract] at ih ⊢
          exact ih

/-- C3 counterexample: a well-formed row whose structured `data-price`
attribute is present but unparseable (`"abc"`) is still emitted, but its
price field is `NaN` (modelled `none`), not `0` — refuting the claim that
an unparseable price defaults to 0. -/
theorem extract_unparseable_price_not_zero :
    (extract "BrandX" [unparseablePriceRow]).map (fun rec => rec.price) =
      [(none : Option ℚ)] ∧
    (none : Option ℚ) ≠ some 0 := by
  constructor
  · rfl
  · decide

/-- C3 (amended): extraction from a page with N well-formed product rows
(non-spacer, non-empty trimmed sku and name) emits exactly N records —
malformed and spacer rows are silently dropped; a row whose price and
quantity sources are absent is emitted with 0 for those fields; a row
with an unparseable price or quantity source is still emitted, though
with `NaN` (modelled `none`) for that field rather than 0. -/
theorem extract_count_and_defaults (brand : String) (rows : List Row) (r : Row) :
    (extract brand rows).length = rows.countP wellFormedRow ∧
    (wellFormedRow r = true → (extractRow brand r).isSome = true) ∧
    (wellFormedRow r = true → r.dataPrice = none → stripNonNumeric r.priceText = "" →
      ∃ rec, extractRow brand r = some rec ∧ rec.price = some 0) ∧
    (wellFormedRow r = true → stripNonNumeric r.qtyText = "" → r.qtyMax = none →
      ∃ rec, extractRow brand r = some rec ∧ rec.qty = some 0) := by
  have hwf : ∀ hr : wellFormedRow r = true,
      extractRow brand r =
        some ⟨brand, jsTrim (stripCodeSku r.codeText), rowStatus r, rowPrice r,
          jsTrim r.titleText, rowQty r⟩ := by
    intro hr
    unfold wellFormedRow at hr
    simp only [Bool.and_eq_true, Bool.not_eq_true', beq_eq_false_iff_ne, ne_eq,
      Bool.not_eq_true] at hr
    unfold extractRow
    simp [hr.1.1, hr.1.2, hr.2]
  refine ⟨extract_length_eq_countP brand rows, ?_, ?_, ?_⟩
  · intro hr; rw [hwf hr]; rfl
  · intro hr hdp hpt
    refine ⟨_, hwf hr, ?_⟩
    show rowPrice r = some 0
    unfold rowPrice rowRawPrice
    rw [hdp, hpt]
    simp
  · intro hr hqt hqm
    refine ⟨_, hwf hr, ?_⟩
    show rowQty r = some 0
    unfold rowQty
    rw [hqt, hqm]
    simp

/-- C3 witness: the amended theorem applied to a concrete page of one
well-formed row with absent price and quantity sources. -/
theorem extract_count_and_defaults_witness :
    ∃ rec, extractRow "BrandX" ⟨false, "Widget", "AB123", none, "", "", none⟩ =
      some rec ∧ rec.price = some 0 :=
  (extract_count_and_defaults "BrandX" []
    ⟨false, "Widget", "AB123", none, "", "", none⟩).2.2.1 (by decide) rfl rfl

/-- C4 counterexample: on a row carrying both a displayed stock text
(`"5 in stock"`) and a quantity-input `max` attribute (`"10"`), the
extracted quantity is 5 — taken from the displayed text, not from the
input's upper bound as the claim states. -/
theorem qty_text_beats_max_attr :
    (extract "BrandX" [qtyDisagreeRow]).map (fun rec => rec.qty) = [some (5 : ℚ)] ∧
    some (5 : ℚ) ≠ some (10 : ℚ) := by
  constructor
  · have h5 : jsParseFloat "5" = some 5 := by
      simp [jsParseFloat, digitsVal, applyExponent, applyExpTail]
    have hst : stripNonNumeric qtyDisagreeRow.qtyText = "5" := by decide
    have hq : rowQty qtyDisagreeRow = some 5 := by
      simp [rowQty, hst, h5]
    show [rowQty qtyDisagreeRow] = [some (5 : ℚ)]
    rw [hq]
  · simp

/-- C4 (amended): the extracted quantity is taken from the displayed stock
text stripped of non-numeric characters whenever that stripped text is
non-empty; only otherwise is it taken from the quantity input's `max`
attribute; and it defaults to 0 when neither source is available. -/
theorem rowQty_prefers_stock_text (r : Row) :
    (stripNonNumeric r.qtyText ≠ "" →
      rowQty r = jsParseFloat (stripNonNumeric r.qtyText)) ∧
    (stripNonNumeric r.qtyText = "" → ∀ m, r.qtyMax = some m → m ≠ "" →
      rowQty r = jsParseFloat m) ∧
    (stripNonNumeric r.qtyText = "" → (r.qtyMax = none ∨ r.qtyMax = some "") →
      rowQty r = some 0) ∧
    (∀ brand rec, extractRow brand r = some rec → rec.qty = rowQty r) := by
  refine ⟨?_, ?_, ?_, ?_⟩
  · intro h
    simp [rowQty, h]
  · intro h m hm hme
    simp [rowQty, h, hm, hme]
  · intro h hm
    rcases hm with hm | hm <;> simp [rowQty, h, hm]
  · intro brand rec hrec
    rw [extractRow_eq] at hrec
    by_cases hs : r.secondRow
    · rw [if_pos hs] at hrec
      exact absurd hrec (by simp)
    · rw [if_neg hs] at hrec
      by_cases hcond : jsTrim (stripCodeSku r.codeText) ≠ "" ∧ jsTrim r.titleText ≠ ""
      · rw [if_pos hcond] at hrec
        cases hrec
        rfl
      · rw [if_neg hcond] at hrec
        exact absurd hrec (by simp)

/-- C4 witness: the amended theorem applied to the row with stock text
`"5 in stock"` and `max` attribute `"10"` — the stripped stock text is
non-empty, so it is the parsed source. -/
theorem rowQty_prefers_stock_text_witness :
    rowQty qtyDisagreeRow = jsParseFloat (stripNonNumeric qtyDisagreeRow.qtyText) :=
  (rowQty_prefers_stock_text qtyDisagreeRow).1 (by decide)

/-- C5: the extracted price is the parse of the price element's
`data-price` attribute whenever that attribute is present (with a value,
i.e. truthy), taking precedence over any displayed text; with no such
attribute it is the parse of the displayed text stripped of everything
but digits and decimal points (0 when that leaves nothing); concretely,
displayed text `£6.03` with no attribute yields `6.03`, and
`data-price="6.03"` beside displayed text `£9.99` also yields `6.03`. -/
theorem rowPrice_attr_precedence (r : Row) :
    (∀ s, r.dataPrice = some s → s ≠ "" → rowPrice r = jsParseFloat s) ∧
    (r.dataPrice = none →
      rowPrice r =
        if stripNonNumeric r.priceText = "" then some 0
        else jsParseFloat (stripNonNumeric r.priceText)) ∧
    (∀ brand rec, extractRow brand r = some rec → rec.price = rowPrice r) ∧
    rowPrice ⟨false, "", "", none, "£6.03", "", none⟩ = some (603 / 100) ∧
    rowPrice ⟨false, "", "", some "6.03", "£9.99", "", none⟩ = some (603 / 100) := by
  have h603 : jsParseFloat "6.03" = some (603 / 100) := by
    simp [jsParseFloat, digitsVal, applyExponent, applyExpTail]
    norm_num
  refine ⟨?_, ?_, ?_, ?_, ?_⟩
  · intro s hs hse
    simp [rowPrice, rowRawPrice, hs, hse]
  · intro h
    by_cases hp : stripNonNumeric r.priceText = "" <;>
      simp [rowPrice, rowRawPrice, h, hp]
  · intro brand rec hrec
    rw [extractRow_eq] at hrec
    by_cases hs : r.secondRow
    · rw [if_pos hs] at hrec
      exact absurd hrec (by simp)
    · rw [if_neg hs] at hrec
      by_cases hcond : jsTrim (stripCodeSku r.codeText) ≠ "" ∧ jsTrim r.titleText ≠ ""
      · rw [if_pos hcond] at hrec
        cases hrec
        rfl
      · rw [if_neg hcond] at hrec
        exact absurd hrec (by simp)
  · have hraw : rowRawPrice ⟨false, "", "", none, "£6.03", "", none⟩ = "6.03" := by
      decide
    rw [rowPrice, hraw]
    simpa using h603
  · have hraw : rowRawPrice ⟨false, "", "", some "6.03", "£9.99", "", none⟩ = "6.03" := by
      decide
    rw [rowPrice, hraw]
    simpa using h603

/-- C5 witness: the theorem applied to the row whose `data-price`
attribute is `"6.03"` beside displayed text `£9.99`. -/
theorem rowPrice_attr_precedence_witness :
    rowPrice ⟨false, "", "", some "6.03", "£9.99", "", none⟩ = jsParseFloat "6.03" :=
  (rowPrice_attr_precedence ⟨false, "", "", some "6.03", "£9.99", "", none⟩).1
    "6.03" rfl (by decide)

end ExtractionProofs

section StateMachineProofs

/-- On a "no products available" page, a task already in search fallback
enqueues nothing. -/
theorem requestHandler_fallback_stops (b : String) (req : Req) (p : Page)
    (h1 : noProducts p = true) (h2 : req.isSearchFallback = true) :
    (requestHandler b req p).1 = [] := by
  simp [requestHandler, h1, h2]

/-- On a "no products available" page, a task still in the listing state
enqueues exactly the fallback search request, flagged as fallback. -/
theorem requestHandler_fallback_once (b : String) (req : Req) (p : Page)
    (h1 : noProducts p = true) (h2 : req.isSearchFallback = false) :
    (requestHandler b req p).1 = [⟨searchUrl b req.brandName, req.brandName, true⟩] := by
  simp [requestHandler, h1, h2]

/-- On a page with products, the enqueued pagination requests carry the
task's `userData` (brand and fallback flag) over unchanged. -/
theorem requestHandler_paginates (b : String) (req : Req) (p : Page)
    (h1 : noProducts p = false) :
    (requestHandler b req p).1 =
      p.nextLinks.map (fun u => ⟨u, req.brandName, req.isSearchFallback⟩) := by
  simp [requestHandler, h1]

/-- Any request enqueued by the handler preserves a `true` fallback flag. -/
theorem stepRel_flagLE {b : String} {req req' : Req} (h : StepRel b req req') :
    FlagLE req req' := by
  intro hf
  obtain ⟨p, hm⟩ := h
  cases h1 : noProducts p with
  | true =>
      rw [requestHandler_fallback_stops b req p h1 hf] at hm
      exact absurd hm (List.not_mem_nil req')
  | false =>
      rw [requestHandler_paginates b req p h1] at hm
      obtain ⟨u, _, hu⟩ := List.mem_map.mp hm
      rw [← hu]
      exact hf

/-- Along any chain of page-processing steps the fallback flag is
monotone pairwise: once `true` it stays `true`. -/
theorem chain_flagLE {b : String} {l : List Req}
    (h : List.Chain' (StepRel b) l) : List.Pairwise FlagLE l := by
  haveI : IsTrans Req FlagLE := ⟨fun _ _ _ hab hbc ha => hbc (hab ha)⟩
  exact List.chain'_iff_pairwise.mp (h.imp fun _ _ => stepRel_flagLE)

/-- A monotone Boolean trace starting at `true` has no rises. -/
theorem boolRises_all_true :
    ∀ rest : List Bool,
      List.Chain' (fun a c => a = true → c = true) (true :: rest) →
      boolRises (true :: rest) = 0
  | [], _ => rfl
  | b :: rest, h => by
      obtain ⟨hab, h2⟩ := List.chain'_cons.mp h
      have hb : b = true := hab rfl
      subst hb
      have := boolRises_all_true rest h2
      simpa [boolRises] using this

/-- A monotone Boolean trace rises at most once. -/
theorem boolRises_le_one :
    ∀ l : List Bool,
      List.Chain' (fun a c => a = true → c = true) l → boolRises l ≤ 1
  | [], _ => by simp [boolRises]
  | [_], _ => by simp [boolRises]
  | a :: b :: rest, h => by
      obtain ⟨hab, h2⟩ := List.chain'_cons.mp h
      cases a with
      | true =>
          rw [boolRises_all_true (b :: rest) h]
          exact Nat.zero_le 1
      | false =>
          cases b with
          | true =>
              have h0 := boolRises_all_true rest h2
              simp [boolRises, h0]
          | false =>
              have := boolRises_le_one (false :: rest) h2
              simpa [boolRises] using this

/-- C2: along every lineage of page-processing steps the transition
`LISTING → SEARCH_FALLBACK` happens at most once and is never reverted:
a fallback task on a "no products" page enqueues nothing, a listing task
there enqueues exactly one fallback-flagged search request, pagination
requests carry the current flag unchanged, and along any chain the flag
is monotone with at most one rise. -/
theorem fallback_transition_at_most_once (b : String) :
    (∀ req p, noProducts p = true → req.isSearchFallback = true →
      (requestHandler b req p).1 = []) ∧
    (∀ req p, noProducts p = true → req.isSearchFallback = false →
      (requestHandler b req p).1 =
        [⟨searchUrl b req.brandName, req.brandName, true⟩]) ∧
    (∀ req p, noProducts p = false →
      (requestHandler b req p).1 =
        p.nextLinks.map (fun u => ⟨u, req.brandName, req.isSearchFallback⟩)) ∧
    (∀ l, List.Chain' (StepRel b) l → List.Pairwise FlagLE l) ∧
    (∀ l, List.Chain' (StepRel b) l → fallbackTransitions l ≤ 1) := by
  refine ⟨requestHandler_fallback_stops b, requestHandler_fallback_once b,
    requestHandler_paginates b, fun _ h => chain_flagLE h, fun l h => ?_⟩
  apply boolRises_le_one
  rw [List.chain'_map]
  exact h.imp fun _ _ hs => stepRel_flagLE hs

/-- C2 witness: a concrete two-step lineage in which a listing task on a
"no products" page becomes the fallback-flagged search request, with at
most one transition counted. -/
theorem fallback_transition_at_most_once_witness :
    (requestHandler defaultBaseUrl ⟨"u", "Acme", false⟩ pageNoProducts).1 =
      [⟨searchUrl defaultBaseUrl "Acme", "Acme", true⟩] ∧
    fallbackTransitions
      [⟨"u", "Acme", false⟩, ⟨searchUrl defaultBaseUrl "Acme", "Acme", true⟩] ≤ 1 := by
  have hthm := fallback_transition_at_most_once defaultBaseUrl
  refine ⟨hthm.2.1 ⟨"u", "Acme", false⟩ pageNoProducts (by decide) rfl, ?_⟩
  refine hthm.2.2.2.2 _ (List.chain'_cons.mpr ⟨⟨pageNoProducts, ?_⟩, List.chain'_singleton _⟩)
  rw [hthm.2.1 ⟨"u", "Acme", false⟩ pageNoProducts (by decide) rfl]
  exact List.mem_singleton.mpr rfl

/-- C1 counterexample: the brand `Ghost` is absent from an empty brand
dictionary, yet its seeded request has `isSearchFallback = false` (the
listing state, not the fallback state the claim asserts), and when its
search page reports "no products available" the handler does issue one
further fallback request. -/
theorem seeded_flag_counterexample :
    (startRequest defaultBaseUrl (getBrandDictionary defaultBaseUrl []) "Ghost").isSearchFallback
        = false ∧
    (requestHandler defaultBaseUrl
        (startRequest defaultBaseUrl (getBrandDictionary defaultBaseUrl []) "Ghost")
        pageNoProducts).1 ≠ [] := by
  constructor
  · rfl
  · decide

/-- C1 (amended): every seeded task starts with `isSearchFallback = false`
whether or not the brand is in the directory; a present brand's task uses
the directory category URL with `&per_page=96` appended, an absent
brand's task uses the full-text search URL — so when an absent brand's
seeded search page reports no products, the handler enqueues one further
fallback request for the identical search URL, this time flagged as
fallback (after which, by the transition property, no more fallbacks
occur). -/
theorem startRequest_seeding (b : String) (dict : String → Option String)
    (brand : String) :
    (startRequest b dict brand).isSearchFallback = false ∧
    (startRequest b dict brand).brandName = brand ∧
    (∀ u, dict (jsToLower brand) = some u →
      (startRequest b dict brand).url = u ++ "&per_page=96") ∧
    (dict (jsToLower brand) = none →
      (startRequest b dict brand).url = searchUrl b brand ∧
      ∀ p, noProducts p = true →
        (requestHandler b (startRequest b dict brand) p).1 =
          [⟨searchUrl b brand, brand, true⟩]) := by
  refine ⟨?_, ?_, ?_, ?_⟩
  · unfold startRequest
    cases h : dict (jsToLower brand) <;> simp [h]
  · unfold startRequest
    cases h : dict (jsToLower brand) <;> simp [h]
  · intro u hu
    unfold startRequest
    simp [hu]
  · intro hn
    have hreq : startRequest b dict brand = ⟨searchUrl b brand, brand, false⟩ := by
      unfold startRequest
      simp [hn]
    refine ⟨by rw [hreq], fun p hp => ?_⟩
    rw [hreq]
    exact requestHandler_fallback_once b ⟨searchUrl b brand, brand, false⟩ p hp rfl

/-- C1 witness: the amended theorem applied to the absent brand `Ghost`
with the empty dictionary and a concrete "no products" page. -/
theorem startRequest_seeding_witness :
    (startRequest defaultBaseUrl (fun _ => none) "Ghost").url =
      searchUrl defaultBaseUrl "Ghost" ∧
    (requestHandler defaultBaseUrl (startRequest defaultBaseUrl (fun _ => none) "Ghost")
        pageNoProducts).1 =
      [⟨searchUrl defaultBaseUrl "Ghost", "Ghost", true⟩] := by
  have h := (startRequest_seeding defaultBaseUrl (fun _ => none) "Ghost").2.2.2 rfl
  exact ⟨h.1, h.2 pageNoProducts (by decide)⟩

end StateMachineProofs

section SinkProofs

/-- C10: after every page-processing step the buffer holds fewer than 100
records; the capacity check runs once per page after all of the page's
records are pushed, flushing exactly when the post-push buffer reached
100; and a threshold flush writes the entire buffer (however large) as a
single batch, leaving the buffer empty and adding its size to the total. -/
theorem pageBuffer_invariant (s : SinkState) (recs : List ExtractedRecord) :
    ((processPage s recs).1.buffer.length < 100) ∧
    ((processPage s recs).2 = [] ↔ (s.buffer ++ recs).length < 100) ∧
    ((s.buffer ++ recs).length ≥ 100 →
      (processPage s recs).2 = [s.buffer ++ recs] ∧
      (processPage s recs).1.buffer = [] ∧
      (processPage s recs).1.total = s.total + (s.buffer ++ recs).length) := by
  by_cases h : (s.buffer ++ recs).length ≥ 100
  · have hne : (s.buffer ++ recs).isEmpty = false := by
      cases hl : s.buffer ++ recs with
      | nil => rw [hl] at h; simp at h
      | cons x xs => rfl
    rw [List.length_append] at h
    refine ⟨?_, ?_, fun _ => ⟨?_, ?_, ?_⟩⟩ <;>
      simp [processPage, flushBufferToDb, dbWriteOk, h, hne]
  · rw [List.length_append] at h
    refine ⟨?_, ?_, fun hc => ?_⟩
    · simp [processPage, h]
      omega
    · simp [processPage, h]
      omega
    · rw [List.length_append] at hc
      exact absurd hc h

/-- C10 witness: the invariant applied to an empty buffer receiving a page
of exactly 100 records, which triggers the threshold flush of the whole
buffer. -/
theorem pageBuffer_invariant_witness :
    (processPage ⟨[], 0⟩ (List.replicate 100 sampleRecord)).2 =
      [([] : List ExtractedRecord) ++ List.replicate 100 sampleRecord] ∧
    (processPage ⟨[], 0⟩ (List.replicate 100 sampleRecord)).1.buffer = [] ∧
    (processPage ⟨[], 0⟩ (List.replicate 100 sampleRecord)).1.total =
      0 + (([] : List ExtractedRecord) ++ List.replicate 100 sampleRecord).length :=
  (pageBuffer_invariant ⟨[], 0⟩ (List.replicate 100 sampleRecord)).2.2 (by decide)

/-- C6 counterexample: pushing 150 records as a single page's extraction
triggers the one automatic threshold flush of all 150 records, so the
buffer is left empty — not holding 50 — and the end-of-run drain finds an
empty buffer and performs no write, contradicting the claimed second
flush of 50 records. -/
theorem batch_150_single_page_counterexample :
    (runPages [List.replicate 150 sampleRecord]).2.length = 1 ∧
    (runPages [List.replicate 150 sampleRecord]).1.buffer = [] ∧
    (flushBufferToDb dbWriteOk (runPages [List.replicate 150 sampleRecord]).1).attempted
        = none := by
  refine ⟨rfl, rfl, rfl⟩

/-- C6 (amended): the capacity check runs once per processed page and a
triggered flush empties the whole buffer, so how 150 pushed records are
split across pages decides what remains: arriving as a page of 100
followed by a page of 50, they trigger exactly one automatic threshold
flush (of the 100), leave 50 records buffered, and the end-of-run drain
performs exactly one more flush of those 50, for a reported total of 150
— while a single 150-record page is flushed whole by the threshold flush,
leaving nothing for the drain. -/
theorem batch_100_then_50_scenario :
    (runPages [List.replicate 100 sampleRecord, List.replicate 50 sampleRecord]).2 =
      [List.replicate 100 sampleRecord] ∧
    (runPages [List.replicate 100 sampleRecord, List.replicate 50 sampleRecord]).1.buffer =
      List.replicate 50 sampleRecord ∧
    (flushBufferToDb dbWriteOk
        (runPages [List.replicate 100 sampleRecord, List.replicate 50 sampleRecord]).1).attempted
      = some (List.replicate 50 sampleRecord) ∧
    mainDrain dbWriteOk
        (runPages [List.replicate 100 sampleRecord, List.replicate 50 sampleRecord]).1
      = .ok 150 := by
  refine ⟨rfl, rfl, rfl, rfl⟩

/-- C7: flushing is a no-op on an empty buffer (no write performed, state
returned unchanged); when the bulk write fails, the error propagates —
ending the run in failure rather than a success report — and the sink
state is left unchanged: the buffer is not cleared and the total is not
incremented; a successful flush writes the whole buffer once and clears
it while adding its size to the total. -/
theorem flush_failure_preserves_state
    (write : List ExtractedRecord → Except String Unit) (s : SinkState) :
    (s.buffer = [] → flushBufferToDb write s = ⟨s, none, none⟩) ∧
    (∀ e, s.buffer ≠ [] → write s.buffer = .error e →
      (flushBufferToDb write s).state = s ∧
      (flushBufferToDb write s).err = some e ∧
      mainDrain write s = .error e) ∧
    (∀ u, s.buffer ≠ [] → write s.buffer = .ok u →
      (flushBufferToDb write s).state = ⟨[], s.total + s.buffer.length⟩ ∧
      (flushBufferToDb write s).attempted = some s.buffer) := by
  refine ⟨?_, ?_, ?_⟩
  · intro h
    simp [flushBufferToDb, h]
  · intro e hne hw
    have hie : s.buffer.isEmpty = false := by
      cases hl : s.buffer with
      | nil => exact absurd hl hne
      | cons x xs => rfl
    refine ⟨?_, ?_, ?_⟩ <;> simp [flushBufferToDb, mainDrain, hie, hw]
  · intro u hne hw
    have hie : s.buffer.isEmpty = false := by
      cases hl : s.buffer with
      | nil => exact absurd hl hne
      | cons x xs => rfl
    exact ⟨by simp [flushBufferToDb, hie, hw], by simp [flushBufferToDb, hie, hw]⟩

/-- C7 witness: the theorem applied to a one-record buffer and a bulk
write that fails: the error propagates and the state is unchanged. -/
theorem flush_failure_preserves_state_witness :
    (flushBufferToDb (fun _ => .error "db down") ⟨[sampleRecord], 3⟩).state
        = ⟨[sampleRecord], 3⟩ ∧
    (flushBufferToDb (fun _ => .error "db down") ⟨[sampleRecord], 3⟩).err
        = some "db down" ∧
    mainDrain (fun _ => .error "db down") ⟨[sampleRecord], 3⟩ = .error "db down" :=
  (flush_failure_preserves_state (fun _ => .error "db down") ⟨[sampleRecord], 3⟩).2.1
    "db down" (by simp) rfl

end SinkProofs

section SessionAndDirectoryProofs

/-- C8: session acquisition fails with the authentication error exactly
when, after the login form submission's navigation has completed, the
current URL is still the sign-in page; on that failure the diagnostic
screenshot is captured before the browser is closed and the error
returned; otherwise the joined session cookie bundle is returned. -/
theorem getSessionCookies_auth (currentUrl : String)
    (cookies : List (String × String)) :
    ((∃ e, (getSessionCookies currentUrl cookies).2 = .error e) ↔
      jsIncludes currentUrl "sign_in" = true) ∧
    (jsIncludes currentUrl "sign_in" = true →
      getSessionCookies currentUrl cookies =
        ([.screenshot "debug_login_failed.png", .closeBrowser],
          .error loginFailedMessage)) ∧
    (jsIncludes currentUrl "sign_in" = false →
      getSessionCookies currentUrl cookies =
        ([.closeBrowser], .ok (cookieString cookies))) := by
  by_cases h : jsIncludes currentUrl "sign_in" = true
  · refine ⟨⟨fun _ => h, fun _ => ⟨loginFailedMessage, ?_⟩⟩, fun _ => ?_, fun hf => ?_⟩
    · simp [getSessionCookies, h]
    · simp [getSessionCookies, h]
    · rw [hf] at h
      exact absurd h (by simp)
  · have hf : jsIncludes currentUrl "sign_in" = false := by
      cases hv : jsIncludes currentUrl "sign_in" with
      | true => exact absurd hv h
      | false => rfl
    refine ⟨⟨fun ⟨e, he⟩ => ?_, fun hv => absurd hv h⟩, fun hv => absurd hv h,
      fun _ => ?_⟩
    · rw [show (getSessionCookies currentUrl cookies).2 = .ok (cookieString cookies)
          by simp [getSessionCookies, hf]] at he
      exact absurd he (by simp)
    · simp [getSessionCookies, hf]

/-- C8 witness: the theorem applied to a post-submission URL that is still
the sign-in page, discharging the failure branch concretely. -/
theorem getSessionCookies_auth_witness :
    getSessionCookies "https://batterymegastore.b2bwave.com/customers/sign_in" [] =
      ([.screenshot "debug_login_failed.png", .closeBrowser],
        .error loginFailedMessage) :=
  (getSessionCookies_auth "https://batterymegastore.b2bwave.com/customers/sign_in"
    []).2.1 (by decide)

/-- Reduction of `dictInsert` on an entry with a truthy href. -/
theorem dictInsert_write (b : String) (acc : String → Option String)
    (e : DirEntry) (h2 : String) (hh : e.href = some h2) (hne : h2 ≠ "") :
    dictInsert b acc e =
      fun k => if k = jsToLower (jsTrim e.text) then some (b ++ h2) else acc k := by
  unfold dictInsert
  rw [hh]
  dsimp only
  rw [if_pos hne]

/-- Reduction of `dictInsert` on an entry with a falsy href. -/
theorem dictInsert_skip (b : String) (acc : String → Option String)
    (e : DirEntry) (h : e.href = none ∨ e.href = some "") :
    dictInsert b acc e = acc := by
  unfold dictInsert
  rcases h with h | h <;> simp [h]

/-- Folding further directory entries that never write a given key leaves
that key's binding unchanged. -/
theorem foldl_dictInsert_stable (b : String) :
    ∀ (l2 : List DirEntry) (acc : String → Option String) (k : String),
      (∀ e2 ∈ l2, ∀ h2, e2.href = some h2 → h2 ≠ "" →
        jsToLower (jsTrim e2.text) ≠ k) →
      (l2.foldl (dictInsert b) acc) k = acc k
  | [], _, _, _ => rfl
  | e :: rest, acc, k, hnone => by
      rw [List.foldl_cons]
      rw [foldl_dictInsert_stable b rest (dictInsert b acc e) k
        (fun e2 he2 => hnone e2 (List.mem_cons_of_mem e he2))]
      cases hh : e.href with
      | none => rw [dictInsert_skip b acc e (Or.inl hh)]
      | some h2 =>
          by_cases hne : h2 ≠ ""
          · rw [dictInsert_write b acc e h2 hh hne]
            exact if_neg
              (fun hkk => hnone e (List.mem_cons_self e rest) h2 hh hne hkk.symm)
          · rw [not_not] at hne
            rw [dictInsert_skip b acc e (Or.inr (hne ▸ hh))]

/-- Every key bound by the fold was written by some entry of the list
(with a truthy href and the lower-cased trimmed text as key), unless it
was already bound in the accumulator. -/
theorem foldl_dictInsert_keys (b : String) :
    ∀ (entries : List DirEntry) (acc : String → Option String) (k : String),
      ((entries.foldl (dictInsert b) acc) k).isSome →
      (acc k).isSome ∨
        ∃ e ∈ entries, (∃ hr, e.href = some hr ∧ hr ≠ "") ∧
          k = jsToLower (jsTrim e.text)
  | [], _, _, h => Or.inl h
  | e :: rest, acc, k, h => by
      rw [List.foldl_cons] at h
      rcases foldl_dictInsert_keys b rest (dictInsert b acc e) k h with hacc | hrest
      · cases hh : e.href with
        | none =>
            rw [dictInsert_skip b acc e (Or.inl hh)] at hacc
            exact Or.inl hacc
        | some hr =>
            by_cases hne : hr ≠ ""
            · rw [dictInsert_write b acc e hr hh hne] at hacc
              dsimp only at hacc
              by_cases hk : k = jsToLower (jsTrim e.text)
              · exact Or.inr ⟨e, List.mem_cons_self e rest, ⟨hr, hh, hne⟩, hk⟩
              · rw [if_neg hk] at hacc
                exact Or.inl hacc
            · rw [not_not] at hne
              rw [dictInsert_skip b acc e (Or.inr (hne ▸ hh))] at hacc
              exact Or.inl hacc
      · obtain ⟨e2, he2, hw, hk⟩ := hrest
        exact Or.inr ⟨e2, List.mem_cons_of_mem e he2, hw, hk⟩

/-- C9: the brand dictionary built from a directory page has exactly the
lower-cased trimmed entry names (of entries with truthy hrefs) as keys;
when several entries share a normalized name the last one's URL wins; and
a page with zero entries yields an empty dictionary, not an error. -/
theorem getBrandDictionary_guarantees (b : String) (entries : List DirEntry)
    (k : String) :
    (getBrandDictionary b [] k = none) ∧
    ((getBrandDictionary b entries k).isSome →
      ∃ e ∈ entries, (∃ hr, e.href = some hr ∧ hr ≠ "") ∧
        k = jsToLower (jsTrim e.text)) ∧
    (∀ e hr l2, e.href = some hr → hr ≠ "" →
      (∀ e2 ∈ l2, ∀ h2, e2.href = some h2 → h2 ≠ "" →
        jsToLower (jsTrim e2.text) ≠ jsToLower (jsTrim e.text)) →
      getBrandDictionary b (entries ++ e :: l2) (jsToLower (jsTrim e.text)) =
        some (b ++ hr)) := by
  refine ⟨rfl, ?_, ?_⟩
  · intro h
    rcases foldl_dictInsert_keys b entries (fun _ => none) k h with habs | hfound
    · exact absurd habs (by simp)
    · exact hfound
  · intro e hr l2 hhr hne hnodup
    unfold getBrandDictionary
    rw [List.foldl_append, List.foldl_cons]
    rw [foldl_dictInsert_stable b l2 _ _ hnodup]
    rw [dictInsert_write b _ e hr hhr hne]
    exact if_pos rfl

/-- C9 witness: a directory page with two entries sharing the normalized
name `acme`, where the later entry's URL wins, applied through the
last-wins clause of the theorem. -/
theorem getBrandDictionary_guarantees_witness :
    getBrandDictionary defaultBaseUrl
        [⟨"ACME", some "/products/list?category=7&brand=old"⟩,
         ⟨"Acme", some "/products/list?category=7&brand=acme"⟩]
        (jsToLower (jsTrim "Acme")) =
      some (defaultBaseUrl ++ "/products/list?category=7&brand=acme") :=
  (getBrandDictionary_guarantees defaultBaseUrl
      [⟨"ACME", some "/products/list?category=7&brand=old"⟩] "x").2.2
    ⟨"Acme", some "/products/list?category=7&brand=acme"⟩
    "/products/list?category=7&brand=acme" [] rfl (by decide)
    (fun e2 he2 => absurd he2 (List.not_mem_nil e2))

end SessionAndDirectoryProofs

end B2BWave
